import Mathlib

/-!
Verification of the TradeGraph backend (NestJS) against its specification.

The definitions below are shallow embeddings of the TypeScript source:
JavaScript string falsiness (`undefined`/`''`) is made explicit via
`Option String` and the `strFalsy`/`strOr` helpers, JS object lookup with a
`|| default` fallback becomes `Option.getD`, numbers are modelled as `ℚ`
(`Nat` where the source only ever holds non-negative integers), and functions
that cannot throw are total Lean functions.
-/

namespace TradeGraph

/-- JS falsiness for an optional string: `undefined`/`null` and `''` are falsy. -/
def strFalsy : Option String → Bool
  | none => true
  | some s => decide (s = "")

/-- `v || d` for an optional string (JS: `undefined` and `''` fall back to `d`). -/
def strOr (v : Option String) (d : String) : String :=
  match v with
  | none => d
  | some s => if s = "" then d else s

/-- `v || d` for an optional number (JS: `undefined` and `0` fall back to `d`). -/
def numOr (v : Option Nat) (d : Nat) : Nat :=
  match v with
  | none => d
  | some n => if n = 0 then d else n

/-! ### Tier guard — src/backend/src/common/guards/tier.guard.ts -/

/-- The `tierHierarchy` record of `TierGuard`: a string-keyed lookup map.
`none` models a key absent from the JS object (lookup yields `undefined`). -/
def tierHierarchy (t : String) : Option Nat :=
  if t = "STARTER" then some 1
  else if t = "PRO" then some 2
  else if t = "ENTERPRISE" then some 3
  else if t = "GOV" then some 4
  else if t = "CHAMBER" then some 3
  else none

/-- `this.tierHierarchy[t] || 0`: an absent key defaults to rank 0. -/
def tierLevel (t : String) : Nat := (tierHierarchy t).getD 0

/-- Whether a tier string is one of the five keys of `tierHierarchy`. -/
def recognizedTier (t : String) : Bool := (tierHierarchy t).isSome

/-- `TierGuard.canActivate`: `requiredTier` is the reflector metadata (absent
or empty is falsy and means no requirement), `userTier` is
`request.user?.tier` (absent user or tier, or empty tier, falls back to
`'STARTER'`). The guard compares ranks numerically. -/
def tierCanActivate (requiredTier : Option String) (userTier : Option String) : Bool :=
  if strFalsy requiredTier then true
  else
    let ut := strOr userTier "STARTER"
    let requiredLevel := tierLevel (requiredTier.getD "")
    let userLevel := tierLevel ut
    decide (userLevel ≥ requiredLevel)

/-! ### JWT auth guard — src/backend/src/common/guards/jwt-auth.guard.ts -/

/-- The user object the auth guard installs on the request. -/
structure AuthUser where
  id : String
  organizationId : String
  tier : String
  role : String
deriving DecidableEq, Repr

/-- The synthetic user installed when no Authorization header is present. -/
def devUser : AuthUser :=
  { id := "dev-user", organizationId := "dev-org", tier := "PRO", role := "ADMIN" }

/-- The mock user installed when an Authorization header is present. -/
def mockUser : AuthUser :=
  { id := "user-123", organizationId := "org-456", tier := "PRO", role := "ANALYST" }

/-- `JwtAuthGuard.canActivate`: returns the guard verdict together with the
user object it installs on the request. The header check is JS-falsy
(`if (!authHeader)`), so a missing or empty header selects the dev user. -/
def jwtCanActivate (authHeader : Option String) : Bool × AuthUser :=
  if strFalsy authHeader then (true, devUser)
  else (true, mockUser)

/-! ### Helper lemmas on the tier table -/

theorem recognizedTier_iff (t : String) :
    recognizedTier t = true ↔
      (t = "STARTER" ∨ t = "PRO" ∨ t = "ENTERPRISE" ∨ t = "GOV" ∨ t = "CHAMBER") := by
  unfold recognizedTier tierHierarchy
  split_ifs <;> simp_all

theorem tierLevel_of_unrecognized (t : String) (h : recognizedTier t = false) :
    tierLevel t = 0 := by
  unfold recognizedTier at h
  unfold tierLevel
  cases hh : tierHierarchy t with
  | none => rfl
  | some v => rw [hh] at h; simp at h

theorem recognized_ne_empty (t : String) (h : recognizedTier t = true) : t ≠ "" := by
  rcases (recognizedTier_iff t).mp h with h' | h' | h' | h' | h' <;> subst h' <;> decide

theorem tierLevel_pos_of_recognized (t : String) (h : recognizedTier t = true) :
    1 ≤ tierLevel t := by
  rcases (recognizedTier_iff t).mp h with h' | h' | h' | h' | h' <;> subst h' <;> decide

/-- C1: Tier gating respects the fixed ranking STARTER=1, PRO=2, ENTERPRISE=3,
CHAMBER=3, GOV=4: a PRO-gated operation rejects a STARTER caller and accepts
PRO, ENTERPRISE, CHAMBER and GOV callers, and for every recognized caller tier
acceptance holds iff the caller's rank is at least the required rank. -/
theorem tier_gating_pro :
    tierLevel "STARTER" = 1 ∧ tierLevel "PRO" = 2 ∧ tierLevel "ENTERPRISE" = 3 ∧
      tierLevel "CHAMBER" = 3 ∧ tierLevel "GOV" = 4 ∧
    tierCanActivate (some "PRO") (some "STARTER") = false ∧
    (∀ t, t ∈ (["PRO", "ENTERPRISE", "CHAMBER", "GOV"] : List String) →
      tierCanActivate (some "PRO") (some t) = true) ∧
    (∀ t, recognizedTier t = true →
      (tierCanActivate (some "PRO") (some t) = true ↔ tierLevel "PRO" ≤ tierLevel t)) := by
  refine ⟨rfl, rfl, rfl, rfl, rfl, by decide, ?_, ?_⟩
  · intro t ht
    fin_cases ht <;> decide
  · intro t ht
    have hne : t ≠ "" := recognized_ne_empty t ht
    unfold tierCanActivate strOr strFalsy
    simp [hne]

/-- C1 witness: at the concrete caller tier ENTERPRISE, membership and
recognition hold and the PRO gate accepts. -/
theorem tier_gating_pro_witness :
    tierCanActivate (some "PRO") (some "ENTERPRISE") = true ∧
      (tierCanActivate (some "PRO") (some "ENTERPRISE") = true ↔
        tierLevel "PRO" ≤ tierLevel "ENTERPRISE") :=
  ⟨tier_gating_pro.2.2.2.2.2.2.1 "ENTERPRISE" (by decide),
   tier_gating_pro.2.2.2.2.2.2.2 "ENTERPRISE" (by decide)⟩

/-- C2 counterexample: "GOLD" is not a recognized tier string, yet when an
operation declares it as the required tier the guard accepts a STARTER caller
(the unrecognized required tier defaults to rank 0 and 1 ≥ 0 passes), where
the claim demands denial. -/
theorem tier_unrecognized_required_admits :
    recognizedTier "GOLD" = false ∧
      tierCanActivate (some "GOLD") (some "STARTER") = true := by
  decide

/-- C2 amended: an unrecognized caller tier is defaulted to rank 0 and denied
whenever the required tier is recognized (rank ≥ 1) and the caller's string is
non-empty; but an empty caller tier string falls back to STARTER rather than
being denied, and an unrecognized required tier string defaults to rank 0 (or,
if empty, to "no requirement"), so the guard then accepts every caller. -/
theorem tier_fail_closed_amended :
    (∀ t req, recognizedTier req = true → recognizedTier t = false → t ≠ "" →
      tierCanActivate (some req) (some t) = false) ∧
    (∀ req t, recognizedTier req = false →
      tierCanActivate (some req) (some t) = true) ∧
    (∀ req, recognizedTier req = true →
      tierCanActivate (some req) (some "") =
        tierCanActivate (some req) (some "STARTER")) := by
  refine ⟨?_, ?_, ?_⟩
  · intro t req hreq ht hne
    have hlvl : tierLevel t = 0 := tierLevel_of_unrecognized t ht
    have hpos : 1 ≤ tierLevel req := tierLevel_pos_of_recognized req hreq
    have hreqne : req ≠ "" := recognized_ne_empty req hreq
    unfold tierCanActivate strOr strFalsy
    simp [hne, hreqne, hlvl]
    omega
  · intro req t hreq
    have hlvl : tierLevel req = 0 := tierLevel_of_unrecognized req hreq
    unfold tierCanActivate strOr strFalsy
    by_cases hreqe : req = ""
    · simp [hreqe]
    · simp [hreqe, hlvl]
  · intro req hreq
    have hreqne : req ≠ "" := recognized_ne_empty req hreq
    unfold tierCanActivate strOr strFalsy
    simp [hreqne]

/-- C2 witness: the amended statement applied at concrete inputs — a caller
with unrecognized tier "GOLD" is denied by a PRO-gated operation, and an
operation gated on unrecognized tier "GOLD" accepts a STARTER caller. -/
theorem tier_fail_closed_amended_witness :
    tierCanActivate (some "PRO") (some "GOLD") = false ∧
      tierCanActivate (some "GOLD") (some "STARTER") = true :=
  ⟨tier_fail_closed_amended.1 "GOLD" "PRO" (by decide) (by decide) (by decide),
   tier_fail_closed_amended.2.1 "GOLD" "STARTER" (by decide)⟩

/-- C9: the auth guard admits every request — its verdict is always `true` —
and the user it installs has tier PRO whether or not an Authorization header
is present (the dev user when the header is absent), so every request reaches
tier gating as a PRO caller and passes both STARTER- and PRO-gated endpoints. -/
theorem jwt_guard_admits_all (h : Option String) :
    (jwtCanActivate h).1 = true ∧
    ((jwtCanActivate h).2).tier = "PRO" ∧
    (h = none → (jwtCanActivate h).2 = devUser) ∧
    tierCanActivate (some "STARTER") (some ((jwtCanActivate h).2).tier) = true ∧
    tierCanActivate (some "PRO") (some ((jwtCanActivate h).2).tier) = true := by
  cases h with
  | none => refine ⟨rfl, rfl, fun _ => rfl, by decide, by decide⟩
  | some s =>
    by_cases hs : s = "" <;>
      refine ⟨?_, ?_, ?_, ?_, ?_⟩ <;>
      simp [jwtCanActivate, strFalsy, hs, devUser, mockUser] <;> decide

/-- C9 witness: at the concrete header-absent request, the guard admits it,
installs the dev user, and that user passes the STARTER and PRO gates. -/
theorem jwt_guard_admits_all_witness :
    (jwtCanActivate none).1 = true ∧ (jwtCanActivate none).2 = devUser ∧
      tierCanActivate (some "PRO") (some ((jwtCanActivate none).2).tier) = true :=
  ⟨(jwt_guard_admits_all none).1, (jwt_guard_admits_all none).2.2.1 rfl,
   (jwt_guard_admits_all none).2.2.2.2⟩

/-! ### Tariffs service — src/backend/src/modules/search/search.service.ts
(the file also holds `TariffsService`) -/

/-- One entry of `preferentialRates` (shape from the controller response
schema: `ftaName`, `rate`, `conditions`). -/
structure PreferentialRate where
  ftaName : String
  rate : ℚ
  conditions : String
deriving DecidableEq, Repr

/-- One entry of `tradeMeasures` (shape from the controller response schema). -/
structure TradeMeasure where
  type : String
  rate : ℚ
  effectiveFrom : String
  effectiveTo : String
deriving DecidableEq, Repr

/-- The object returned by `TariffsService.getDutyRates`. Note there is no
`dataQuality` field in the source's return shape. -/
structure DutyRates where
  hsCode : String
  origin : String
  destination : String
  mfnRate : ℚ
  preferentialRates : List PreferentialRate
  tradeMeasures : List TradeMeasure
  effectiveTotalRate : ℚ
deriving DecidableEq, Repr

/-- `TariffsService.getDutyRates`: a total function — the source performs no
validation and cannot throw; every hsCode resolves to MFN rate 0, no
preferential rates, no trade measures, effective total rate 0. -/
def getDutyRates (hsCode origin destination : String) : DutyRates :=
  { hsCode := hsCode, origin := origin, destination := destination,
    mfnRate := 0, preferentialRates := [], tradeMeasures := [],
    effectiveTotalRate := 0 }

/-- Modelled from the spec: HS-code schema validation ("wrong digit count";
glossary: an HS code is 6+ digits, controller doc: 6-10 digits). The source
contains no such validation; this predicate only states which inputs the
claim calls malformed. -/
def hsCodeWellFormed (s : String) : Bool :=
  decide (6 ≤ s.length) && decide (s.length ≤ 10) && s.toList.all Char.isDigit

/-- The `const vatRate = 0.2` constant of `calculateLandedCost`
("Default 20% VAT, would be destination-specific"). -/
def defaultVatRate : ℚ := 1 / 5

/-- The object returned by `TariffsService.calculateLandedCost`. -/
structure LandedCostEstimate where
  hsCode : String
  origin : String
  destination : String
  cifValue : ℚ
  dutyRate : ℚ
  dutyAmount : ℚ
  vatRate : ℚ
  vatAmount : ℚ
  totalLandedCost : ℚ
  disclaimer : String
deriving DecidableEq, Repr

/-- The arithmetic of `calculateLandedCost`, parametric in the effective rate
taken from the duty-rates result and in the VAT rate constant:
`dutyAmount = cifValue * (rate / 100)`, `vatAmount = (cifValue + dutyAmount) *
vatRate`, total `cifValue + dutyAmount + vatAmount`. -/
def landedCostFigures (effectiveTotalRate vatRate cifValue : ℚ) : ℚ × ℚ × ℚ :=
  let dutyAmount := cifValue * (effectiveTotalRate / 100)
  let vatAmount := (cifValue + dutyAmount) * vatRate
  (dutyAmount, vatAmount, cifValue + dutyAmount + vatAmount)

/-- `TariffsService.calculateLandedCost`: chains `getDutyRates`, then computes
duty, VAT and total; total on all of `ℚ` — the source performs no input
validation and cannot throw. -/
def calculateLandedCost (hsCode origin destination : String)
    (cifValue : ℚ) : LandedCostEstimate :=
  let rates := getDutyRates hsCode origin destination
  let dutyAmount := cifValue * (rates.effectiveTotalRate / 100)
  let vatRate := defaultVatRate
  let vatAmount := (cifValue + dutyAmount) * vatRate
  { hsCode := hsCode, origin := origin, destination := destination,
    cifValue := cifValue,
    dutyRate := rates.effectiveTotalRate,
    dutyAmount := dutyAmount,
    vatRate := vatRate * 100,
    vatAmount := vatAmount,
    totalLandedCost := cifValue + dutyAmount + vatAmount,
    disclaimer := "This is an estimate. Actual costs may vary based on specific circumstances." }

/-- The body of `calculateLandedCost` computes exactly `landedCostFigures` at
the resolved effective rate and the default VAT rate. -/
theorem calculateLandedCost_figures (h o d : String) (cif : ℚ) :
    (calculateLandedCost h o d cif).dutyAmount =
        (landedCostFigures (getDutyRates h o d).effectiveTotalRate defaultVatRate cif).1 ∧
      (calculateLandedCost h o d cif).vatAmount =
        (landedCostFigures (getDutyRates h o d).effectiveTotalRate defaultVatRate cif).2.1 ∧
      (calculateLandedCost h o d cif).totalLandedCost =
        (landedCostFigures (getDutyRates h o d).effectiveTotalRate defaultVatRate cif).2.2 :=
  ⟨rfl, rfl, rfl⟩

/-- C4: for every cifValue ≥ 0, effective rate r and VAT rate v the
landed-cost arithmetic satisfies dutyAmount = cifValue * r / 100,
vatAmount = (cifValue + dutyAmount) * v and
total = cifValue + dutyAmount + vatAmount. -/
theorem landed_cost_formula (cif r v : ℚ) (hcif : 0 ≤ cif) :
    (landedCostFigures r v cif).1 = cif * (r / 100) ∧
    (landedCostFigures r v cif).2.1 = (cif + (landedCostFigures r v cif).1) * v ∧
    (landedCostFigures r v cif).2.2 =
      cif + (landedCostFigures r v cif).1 + (landedCostFigures r v cif).2.1 :=
  ⟨rfl, rfl, rfl⟩

/-- C4 witness: cifValue = 10000, r = 5, v = 20% (the code's VAT constant)
yields dutyAmount 500, vatAmount 2100, total 12600. -/
theorem landed_cost_formula_witness :
    (0 : ℚ) ≤ 10000 ∧
    (landedCostFigures 5 defaultVatRate 10000).1 = 500 ∧
    (landedCostFigures 5 defaultVatRate 10000).2.1 = 2100 ∧
    (landedCostFigures 5 defaultVatRate 10000).2.2 = 12600 := by
  have h := landed_cost_formula 10000 5 defaultVatRate (by norm_num)
  refine ⟨by norm_num, ?_, ?_, ?_⟩
  · rw [h.1]; norm_num
  · rw [h.2.1, h.1]; norm_num [defaultVatRate]
  · rw [h.2.2, h.2.1, h.1]; norm_num [defaultVatRate]

/-- C6 counterexample: "12" fails HS-code schema validation (wrong digit
count), yet `getDutyRates` does not fail with NotFound — it resolves normally
to MFN rate 0; moreover its result shape carries no dataQuality marker (the
`DutyRates` record has exactly the seven fields shown). -/
theorem dutyRates_malformed_counterexample :
    hsCodeWellFormed "12" = false ∧
      getDutyRates "12" "CN" "US" =
        { hsCode := "12", origin := "CN", destination := "US", mfnRate := 0,
          preferentialRates := [], tradeMeasures := [], effectiveTotalRate := 0 } := by
  exact ⟨rfl, rfl⟩

/-- C6 amended: the duty-rate lookup performs no schema validation and never
fails: every hsCode — malformed or well-formed, known or unknown — resolves to
MFN rate 0, empty preferential-rate and trade-measure lists and effective
total rate 0, and the result carries no dataQuality marker. -/
theorem dutyRates_total_amended (h o d : String) :
    getDutyRates h o d =
      { hsCode := h, origin := o, destination := d, mfnRate := 0,
        preferentialRates := [], tradeMeasures := [], effectiveTotalRate := 0 } :=
  rfl

/-- C7 counterexample: at cifValue = -100 (< 0) the calculator does not fail
with ValidationError — it returns an estimate, with total -120. -/
theorem landedCost_negative_counterexample :
    ((-100 : ℚ) < 0) ∧
      (calculateLandedCost "010121" "CN" "US" (-100)).totalLandedCost = -120 ∧
      (calculateLandedCost "010121" "CN" "US" (-100)).disclaimer =
        "This is an estimate. Actual costs may vary based on specific circumstances." := by
  refine ⟨by norm_num, ?_, rfl⟩
  show (-100 : ℚ) + (-100) * ((getDutyRates "010121" "CN" "US").effectiveTotalRate / 100) +
      ((-100) + (-100) * ((getDutyRates "010121" "CN" "US").effectiveTotalRate / 100)) *
        defaultVatRate = -120
  norm_num [getDutyRates, defaultVatRate]

/-- C7 amended: the calculator performs no input validation: it is total on
every cifValue, including negative ones, and always returns an estimate
computed by the same formula; no ValidationError path exists. -/
theorem calculateLandedCost_total_amended (h o d : String) (cif : ℚ) :
    (calculateLandedCost h o d cif).cifValue = cif ∧
    (calculateLandedCost h o d cif).dutyAmount =
      cif * ((getDutyRates h o d).effectiveTotalRate / 100) ∧
    (calculateLandedCost h o d cif).vatAmount =
      (cif + (calculateLandedCost h o d cif).dutyAmount) * defaultVatRate ∧
    (calculateLandedCost h o d cif).totalLandedCost =
      cif + (calculateLandedCost h o d cif).dutyAmount +
        (calculateLandedCost h o d cif).vatAmount :=
  ⟨rfl, rfl, rfl, rfl⟩

/-! ### Shipments service — ShipmentsService (search, export) and the
entity/DTO shapes mirrored in the frontend types file -/

/-- Transport mode enumeration from the entity types. -/
inductive TransportMode where
  | SEA | AIR | RAIL | ROAD | MULTIMODAL
deriving DecidableEq, Repr

/-- Shipment record, translated from the `Shipment` interface of the shared
types (the frontend mirror of `backend/src/common/entities`). -/
structure Shipment where
  id : String
  shipperId : String
  shipperName : String
  shipperCountryCode : String
  consigneeId : String
  consigneeName : String
  consigneeCountryCode : String
  originCountryCode : String
  destinationCountryCode : String
  portOfLoadingId : String
  portOfLoadingName : String
  portOfDischargeId : String
  portOfDischargeName : String
  hsCode : String
  productDescription : String
  quantity : ℚ
  quantityUnit : String
  declaredValueUsd : Option ℚ
  unitPriceUsd : Option ℚ
  transportMode : TransportMode
  carrier : Option String
  shipmentDate : String
  arrivalDate : Option String
deriving DecidableEq, Repr

/-- One facet bucket entry (`CountAggregation`: key, label, count). -/
structure CountAggregation where
  key : String
  label : String
  count : Nat
deriving DecidableEq, Repr

/-- A numeric range summary (`RangeAggregation`: min, max, avg). -/
structure RangeAggregation where
  min : ℚ
  max : ℚ
  avg : ℚ
deriving DecidableEq, Repr

/-- `SearchAggregations`: five facet bucket lists and two range summaries. -/
structure SearchAggregations where
  byOriginCountry : List CountAggregation
  byDestinationCountry : List CountAggregation
  byHsChapter : List CountAggregation
  byTransportMode : List CountAggregation
  byCarrier : List CountAggregation
  valueRange : RangeAggregation
  quantityRange : RangeAggregation
deriving DecidableEq, Repr

/-- The facet bucket lists of an aggregations object, in declaration order. -/
def facetBuckets (a : SearchAggregations) : List (List CountAggregation) :=
  [a.byOriginCountry, a.byDestinationCountry, a.byHsChapter,
   a.byTransportMode, a.byCarrier]

/-- `ShipmentSearchResult` (items page, totals, pagination, aggregations). -/
structure ShipmentSearchResult where
  items : List Shipment
  total : Nat
  page : Nat
  pageSize : Nat
  totalPages : Nat
  aggregations : SearchAggregations
deriving DecidableEq, Repr

/-- Search request body, translated from the `ShipmentSearchParams` interface
of the shared types (the frontend mirror of `SearchShipmentsDto`, which is
not among the provided backend files); every field is optional. `page` and
`pageSize` are `Nat` since the spec's DTO invariant validates `page ≥ 1` and
`1 ≤ pageSize ≤ 100`. -/
structure SearchShipmentsDto where
  hsCode : Option String := none
  productKeyword : Option String := none
  shipperName : Option String := none
  consigneeName : Option String := none
  originCountries : Option (List String) := none
  destinationCountries : Option (List String) := none
  portsOfLoading : Option (List String) := none
  portsOfDischarge : Option (List String) := none
  dateFrom : Option String := none
  dateTo : Option String := none
  minQuantity : Option ℚ := none
  maxQuantity : Option ℚ := none
  minValueUsd : Option ℚ := none
  maxValueUsd : Option ℚ := none
  minUnitPrice : Option ℚ := none
  maxUnitPrice : Option ℚ := none
  transportMode : Option TransportMode := none
  carrier : Option String := none
  page : Option Nat := none
  pageSize : Option Nat := none
  sortBy : Option String := none
  sortOrder : Option String := none
  excludeCompanyIds : Option (List String) := none
deriving DecidableEq, Repr

/-- The `user` argument shape of the service methods
(`{ id, organizationId, tier }`). -/
structure SvcUser where
  id : String
  organizationId : String
  tier : String
deriving DecidableEq, Repr

namespace ShipmentsService

/-- `ShipmentsService.search`: the mock data structure the stub returns —
empty items, total 0, totalPages 0, `page` and `pageSize` echoed from the
request with JS-falsy defaults (`searchDto.page || 1`,
`searchDto.pageSize || 20`), and empty aggregations. -/
def search (searchDto : SearchShipmentsDto) (user : SvcUser) :
    ShipmentSearchResult :=
  { items := [], total := 0,
    page := numOr searchDto.page 1,
    pageSize := numOr searchDto.pageSize 20,
    totalPages := 0,
    aggregations :=
      { byOriginCountry := [], byDestinationCountry := [], byHsChapter := [],
        byTransportMode := [], byCarrier := [],
        valueRange := { min := 0, max := 0, avg := 0 },
        quantityRange := { min := 0, max := 0, avg := 0 } } }

/-- The `rowLimits` record of `ShipmentsService.export`; `none` models a key
absent from the JS object. -/
def rowLimits (t : String) : Option Nat :=
  if t = "STARTER" then some 500
  else if t = "PRO" then some 5000
  else if t = "ENTERPRISE" then some 50000
  else if t = "GOV" then some 100000
  else none

/-- `rowLimits[user.tier] || 500`. -/
def exportLimit (t : String) : Nat := (rowLimits t).getD 500

/-- The object `ShipmentsService.export` returns: a message and the format —
no rows and no truncation flag. -/
structure ExportResult where
  message : String
  format : String
deriving DecidableEq, Repr

/-- `ShipmentsService.export`: computes the tier row limit and returns only a
message naming it, together with the requested format. -/
def exportShipments (searchDto : SearchShipmentsDto) (format : String)
    (user : SvcUser) : ExportResult :=
  { message := "Export initiated with limit of " ++ toString (exportLimit user.tier) ++ " rows",
    format := format }

end ShipmentsService

/-- C3 counterexample: a CHAMBER-tier export is capped at 500 rows, not the
claimed 50,000 (CHAMBER is absent from `rowLimits` and falls to the `|| 500`
default), and the export of a STARTER caller returns only a message naming the
500-row limit — no rows and no truncated flag exist in the response shape. -/
theorem export_chamber_cap_counterexample :
    ShipmentsService.exportLimit "CHAMBER" = 500 ∧
      ShipmentsService.exportLimit "CHAMBER" ≠ 50000 ∧
      ShipmentsService.exportShipments {} "csv"
          { id := "u1", organizationId := "o1", tier := "STARTER" } =
        { message := "Export initiated with limit of 500 rows", format := "csv" } := by
  refine ⟨rfl, by decide, rfl⟩

/-- C3 amended: the export row cap is STARTER 500, PRO 5,000, ENTERPRISE
50,000, GOV 100,000, and every other tier string — including CHAMBER — falls
back to 500; the export endpoint is a stub: for every request it returns only
a message naming the caller's limit and the requested format, with no rows and
no truncation flag, so the exactly-cap-rows and truncated=true behavior does
not exist. -/
theorem export_limits_amended :
    ShipmentsService.exportLimit "STARTER" = 500 ∧
    ShipmentsService.exportLimit "PRO" = 5000 ∧
    ShipmentsService.exportLimit "ENTERPRISE" = 50000 ∧
    ShipmentsService.exportLimit "GOV" = 100000 ∧
    (∀ t, ShipmentsService.rowLimits t = none → ShipmentsService.exportLimit t = 500) ∧
    (∀ dto format user, ShipmentsService.exportShipments dto format user =
      { message := "Export initiated with limit of " ++
          toString (ShipmentsService.exportLimit user.tier) ++ " rows",
        format := format }) := by
  refine ⟨rfl, rfl, rfl, rfl, ?_, ?_⟩
  · intro t ht
    unfold ShipmentsService.exportLimit
    rw [ht]
    rfl
  · intro dto format user
    rfl

/-- C3 witness: the amended statement applied at tier CHAMBER (absent from the
cap table) gives the 500-row fallback. -/
theorem export_limits_amended_witness :
    ShipmentsService.rowLimits "CHAMBER" = none ∧
      ShipmentsService.exportLimit "CHAMBER" = 500 :=
  ⟨by decide, export_limits_amended.2.2.2.2.1 "CHAMBER" (by decide)⟩

/-- C8: for every search request, the result satisfies
totalPages = ceil(total / pageSize), and whenever the requested page exceeds
totalPages the result is an empty item list with the same total and totalPages
as the same query at page 1 — not an error (the function is total). -/
theorem search_totalPages_ceil (dto : SearchShipmentsDto) (u : SvcUser) :
    (⌈((ShipmentsService.search dto u).total : ℚ) /
        ((ShipmentsService.search dto u).pageSize : ℚ)⌉₊ =
      (ShipmentsService.search dto u).totalPages) ∧
    ((ShipmentsService.search dto u).page > (ShipmentsService.search dto u).totalPages →
      (ShipmentsService.search dto u).items = [] ∧
      (ShipmentsService.search dto u).total =
        (ShipmentsService.search { dto with page := some 1 } u).total ∧
      (ShipmentsService.search dto u).totalPages =
        (ShipmentsService.search { dto with page := some 1 } u).totalPages) := by
  constructor
  · show ⌈((0 : Nat) : ℚ) / _⌉₊ = 0
    simp
  · intro _
    exact ⟨rfl, rfl, rfl⟩

/-- C8 witness: at the concrete request with page 7, the page exceeds
totalPages (7 > 0) and the result is the empty item list with unchanged total
and totalPages. -/
theorem search_totalPages_ceil_witness :
    (ShipmentsService.search { page := some 7 }
        { id := "u1", organizationId := "o1", tier := "PRO" }).items = [] ∧
    (ShipmentsService.search { page := some 7 }
        { id := "u1", organizationId := "o1", tier := "PRO" }).total =
      (ShipmentsService.search { page := some 1 }
        { id := "u1", organizationId := "o1", tier := "PRO" }).total :=
  ⟨((search_totalPages_ceil { page := some 7 }
      { id := "u1", organizationId := "o1", tier := "PRO" }).2 (by decide)).1,
   ((search_totalPages_ceil { page := some 7 }
      { id := "u1", organizationId := "o1", tier := "PRO" }).2 (by decide)).2.1⟩

/-- C10 counterexample: the claim speaks of six facet buckets, but the search
result's aggregations comprise exactly five facet bucket lists
(byOriginCountry, byDestinationCountry, byHsChapter, byTransportMode,
byCarrier) — there is no sixth. -/
theorem search_five_facets_counterexample :
    (facetBuckets (ShipmentsService.search {}
        { id := "u1", organizationId := "o1", tier := "PRO" }).aggregations).length = 5 ∧
    (5 : Nat) ≠ 6 := by
  exact ⟨rfl, by decide⟩

/-- C10 amended: the shipment search is a constant function of its filters —
every request yields empty items, total 0, totalPages 0, all five facet
buckets empty and both range summaries {min 0, max 0, avg 0}, echoing only
page (default 1) and pageSize (default 20); two requests agreeing on page and
pageSize yield identical results regardless of every other filter and of the
user. -/
theorem search_constant_amended :
    (∀ dto u, ShipmentsService.search dto u =
      { items := [], total := 0,
        page := numOr dto.page 1, pageSize := numOr dto.pageSize 20,
        totalPages := 0,
        aggregations :=
          { byOriginCountry := [], byDestinationCountry := [], byHsChapter := [],
            byTransportMode := [], byCarrier := [],
            valueRange := { min := 0, max := 0, avg := 0 },
            quantityRange := { min := 0, max := 0, avg := 0 } } }) ∧
    (∀ dto dto' u u', dto.page = dto'.page → dto.pageSize = dto'.pageSize →
      ShipmentsService.search dto u = ShipmentsService.search dto' u') := by
  constructor
  · intro dto u
    rfl
  · intro dto dto' u u' hp hps
    unfold ShipmentsService.search
    rw [hp, hps]

/-- C10 witness: two concrete requests differing in every filter but agreeing
on page and pageSize produce the same result, itself the constant record. -/
theorem search_constant_amended_witness :
    ShipmentsService.search { hsCode := some "730800", minValueUsd := some 1000 }
        { id := "u1", organizationId := "o1", tier := "STARTER" } =
      ShipmentsService.search { productKeyword := some "steel" }
        { id := "u2", organizationId := "o2", tier := "GOV" } :=
  search_constant_amended.2
    { hsCode := some "730800", minValueUsd := some 1000 }
    { productKeyword := some "steel" }
    { id := "u1", organizationId := "o1", tier := "STARTER" }
    { id := "u2", organizationId := "o2", tier := "GOV" }
    rfl rfl

/-! ### Compliance service — ComplianceService.runCheck and the CheckCredits
decorator. `CheckCredits('COMPLIANCE_CHECK')` only attaches the metadata entry
`creditType = 'COMPLIANCE_CHECK'` to the endpoint; no guard or interceptor in
the codebase reads that key, and `runCheck` itself neither reads nor writes
any credit balance. -/

/-- `RunCheckDto` (src/backend/src/modules/compliance/dto/run-check.dto.ts). -/
structure RunCheckDto where
  companyId : String
  companyName : Option String := none
deriving DecidableEq, Repr

/-- A sanctions hit entry (shape from the controller response schema); the
stub always returns an empty hits list. -/
structure SanctionsHit where
  listName : String
  matchScore : ℚ
  matchedName : String
  programs : List String
deriving DecidableEq, Repr

/-- The object `ComplianceService.runCheck` returns. -/
structure ComplianceCheckResult where
  id : String
  companyId : String
  companyName : String
  status : String
  checkedAt : String
  checkedBy : String
  hits : List SanctionsHit
  listsChecked : List String
  creditsRemaining : Nat
deriving DecidableEq, Repr

/-- The metadata value set by `CheckCredits('COMPLIANCE_CHECK')` on the
compliance-check endpoint; nothing in the codebase consumes it. -/
def complianceCheckCreditType : String := "COMPLIANCE_CHECK"

/-- `ComplianceService.runCheck`: `now` stands for `Date.now()` and `nowIso`
for `new Date().toISOString()`. The check always succeeds with status CLEAR
and a hardcoded `creditsRemaining` of 100; it takes no credit balance as input
and produces no balance update. -/
def runCheck (checkDto : RunCheckDto) (user : SvcUser)
    (now : Nat) (nowIso : String) : ComplianceCheckResult :=
  { id := "check_" ++ toString now,
    companyId := checkDto.companyId,
    companyName := strOr checkDto.companyName "Unknown",
    status := "CLEAR",
    checkedAt := nowIso,
    checkedBy := user.id,
    hits := [],
    listsChecked := ["OFAC_SDN", "EU_CONSOLIDATED", "UN_SC", "UK_SANCTIONS"],
    creditsRemaining := 100 }

/-- C5: at the claim's failing input — an organization holding 3
compliance-check credits and 10 concurrent single-check requests — every one
of the 10 checks succeeds with status CLEAR and a hardcoded creditsRemaining
of 100. `runCheck` is a pure function that takes no credit balance and
performs no reservation or decrement (and the CheckCredits metadata is read by
no guard), so under any interleaving all N requests succeed: none fails with
QuotaExceeded and no balance reaches 0, contradicting the claim that at most
K = 3 succeed. -/
theorem compliance_no_credit_enforcement :
    ((List.replicate 10 ({ companyId := "company-1" } : RunCheckDto)).map
        (fun d => runCheck d { id := "u1", organizationId := "org-3credits", tier := "STARTER" }
          1700000000000 "2023-11-14T22:13:20.000Z")).length = 10 ∧
    ((List.replicate 10 ({ companyId := "company-1" } : RunCheckDto)).map
        (fun d => runCheck d { id := "u1", organizationId := "org-3credits", tier := "STARTER" }
          1700000000000 "2023-11-14T22:13:20.000Z")).all
      (fun r => (r.status == "CLEAR") && (r.creditsRemaining == 100)) = true := by
  exact ⟨rfl, rfl⟩

end TradeGraph
